import Mathlib

/-!
Verification development for the two-stage content-filtering engine and its
backfill orchestrator (`src/content_analyzer_v2.py`, `src/smart_backfill.py`).

Modelling conventions:
* Python floats (timestamps, relevance scores, rates) are modelled as `ℚ`.
* Machine-level regular expressions are translated into explicit character-list
  scanners; recursions that shrink by more than one character per step use a
  fuel argument (seeded with `length + 1`) so every definition stays
  executable by `decide` / `rfl`.
* Wall-clock effects (`time.time()`, `datetime.now()`) are passed in as
  explicit `ℚ` parameters; external I/O (the feed client, the OpenAI call,
  the datetime-string age parser) is supplied by environment records, with
  the outcome of the remote classification call given by the `AIResult` sum.
* Python's module-global mutable objects (`FilteringMetrics`, the analyzer's
  rate-limit fields) become explicit state records threaded through calls.
-/

namespace AutoTwitter

/-- Python `\s` (whitespace) on the ASCII range used by the analyzer. -/
def isPySpace (c : Char) : Bool :=
  c = ' ' || c = '\t' || c = '\n' || c = '\r' || c = '\x0b' || c = '\x0c'

/-- Python `\w` word characters (ASCII letters, digits, underscore). -/
def isWordChar (c : Char) : Bool :=
  c.isAlphanum || c = '_'

/-- True when `p` is an initial segment of `cs`. -/
def leadsWith : List Char → List Char → Bool
  | [], _ => true
  | _ :: _, [] => false
  | p :: ps, c :: cs => p = c && leadsWith ps cs

/-- Substring containment (Python's `needle in hay`). -/
def containsSub (needle : List Char) : List Char → Bool
  | [] => leadsWith needle []
  | c :: cs => leadsWith needle (c :: cs) || containsSub needle cs

/-- Python `str.strip()` on a character list. -/
def trimChars (cs : List Char) : List Char :=
  ((cs.dropWhile isPySpace).reverse.dropWhile isPySpace).reverse

/-- Python `str.strip()`. -/
def pyStrip (s : String) : String :=
  String.mk (trimChars s.toList)

/-- Match of `https?://\S+` anchored at the head of `cs`: returns the
remainder after the greedy match, or `none` when there is no match here. -/
def urlMatch? (cs : List Char) : Option (List Char) :=
  let rest? : Option (List Char) :=
    if leadsWith ("https://".toList) cs then some (cs.drop 8)
    else if leadsWith ("http://".toList) cs then some (cs.drop 7)
    else none
  match rest? with
  | none => none
  | some rest =>
    match rest with
    | [] => none
    | c :: _ => if isPySpace c then none else some (rest.dropWhile (fun d => !isPySpace d))

/-- `re.sub(r'https?://\S+', "", ·)`: left-to-right non-overlapping removal.
Fuel-driven; one unit of fuel per emitted-or-matched position. -/
def dropUrlsF : Nat → List Char → List Char
  | 0, _ => []
  | _ + 1, [] => []
  | fuel + 1, c :: cs =>
    match urlMatch? (c :: cs) with
    | some rest => dropUrlsF fuel rest
    | none => c :: dropUrlsF fuel cs

def dropUrls (cs : List Char) : List Char :=
  dropUrlsF (cs.length + 1) cs

/-- Match of `@\w+` anchored at the head: remainder after the match. -/
def mentionMatch? : List Char → Option (List Char)
  | '@' :: rest =>
    (match rest with
     | [] => none
     | c :: _ => if isWordChar c then some (rest.dropWhile isWordChar) else none)
  | _ => none

/-- `re.sub(r'@\w+', "", ·)`. -/
def dropMentionsF : Nat → List Char → List Char
  | 0, _ => []
  | _ + 1, [] => []
  | fuel + 1, c :: cs =>
    match mentionMatch? (c :: cs) with
    | some rest => dropMentionsF fuel rest
    | none => c :: dropMentionsF fuel cs

def dropMentions (cs : List Char) : List Char :=
  dropMentionsF (cs.length + 1) cs

/-- Membership in the analyzer's emoji character class
`[\U0001F600-\U0001F64F\U0001F300-\U0001F5FF\U0001F680-\U0001F6FF
\U0001F1E0-\U0001F1FF\U00002600-\U000027BF\U0001F900-\U0001F9FF]`. -/
def isEmojiChar (c : Char) : Bool :=
  let n := c.toNat
  (0x1F600 ≤ n && n ≤ 0x1F64F) || (0x1F300 ≤ n && n ≤ 0x1F5FF) ||
  (0x1F680 ≤ n && n ≤ 0x1F6FF) || (0x1F1E0 ≤ n && n ≤ 0x1F1FF) ||
  (0x2600 ≤ n && n ≤ 0x27BF) || (0x1F900 ≤ n && n ≤ 0x1F9FF)

/-- `emoji_re.sub("", ·)`: a one-character class, so removal is a filter. -/
def dropEmojis (cs : List Char) : List Char :=
  cs.filter (fun c => !isEmojiChar c)

/-- `re.sub(r'\s+', ' ', ·)`: collapse whitespace runs to single spaces. -/
def collapseWsF : Nat → List Char → List Char
  | 0, _ => []
  | _ + 1, [] => []
  | fuel + 1, c :: cs =>
    if isPySpace c then ' ' :: collapseWsF fuel (cs.dropWhile isPySpace)
    else c :: collapseWsF fuel cs

def collapseWs (cs : List Char) : List Char :=
  collapseWsF (cs.length + 1) cs

/-- `BulletproofContentAnalyzer.normalize_text`: strip URLs, then mentions,
then emojis, collapse whitespace, lower-case and trim. -/
def normalize_text (text : String) : String :=
  let cs := text.toList
  let cs := dropUrls cs
  let cs := dropMentions cs
  let cs := dropEmojis cs
  let cs := collapseWs cs
  String.mk (trimChars (cs.map Char.toLower))

/-- `len(raw_text.split())`: number of maximal non-whitespace runs. -/
def countTokensF : Nat → List Char → Nat
  | 0, _ => 0
  | _ + 1, [] => 0
  | fuel + 1, c :: cs =>
    if isPySpace c then countTokensF fuel cs
    else 1 + countTokensF fuel ((c :: cs).dropWhile (fun d => !isPySpace d))

def countTokens (cs : List Char) : Nat :=
  countTokensF (cs.length + 1) cs

/-- Number of non-overlapping matches of `#\w+` (`hashtag_re.findall`). -/
def countHashtagsF : Nat → List Char → Nat
  | 0, _ => 0
  | _ + 1, [] => 0
  | fuel + 1, c :: cs =>
    if c = '#' then
      match cs with
      | d :: _ =>
        if isWordChar d then 1 + countHashtagsF fuel (cs.dropWhile isWordChar)
        else countHashtagsF fuel cs
      | [] => 0
    else countHashtagsF fuel cs

def countHashtags (cs : List Char) : Nat :=
  countHashtagsF (cs.length + 1) cs

/-- `BulletproofContentAnalyzer.compute_hashtag_ratio`, on raw text. -/
def compute_hashtag_ratio (raw_text : String) : ℚ :=
  if raw_text = "" then 0
  else
    let t0 := countTokens raw_text.toList
    let total_tokens := if t0 = 0 then 1 else t0
    (countHashtags raw_text.toList : ℚ) / (total_tokens : ℚ)

/-- `BulletproofContentAnalyzer.is_retweet`:
`raw_text.strip().lower().startswith("rt ")`. -/
def is_retweet (raw_text : String) : Bool :=
  leadsWith ("rt ".toList) ((trimChars raw_text.toList).map Char.toLower)

/-- Candidate post (`ScrapedTweet`); only the fields the filtering engine
reads are modelled (`created_at`, engagement fields beyond likes/retweets and
display metadata never influence a decision). -/
structure ScrapedTweet where
  tweet_id : String
  text : String
  author_username : String
  media_urls : List String
  like_count : Nat
  retweet_count : Nat
  deriving Repr, DecidableEq

/-- `BulletproofContentAnalyzer.is_quote_tweet`:
`"QT" in tweet.text or any("twitter.com" in url for url in media_urls)`. -/
def is_quote_tweet (t : ScrapedTweet) : Bool :=
  containsSub ("QT".toList) t.text.toList ||
    t.media_urls.any (fun u => containsSub ("twitter.com".toList) u.toList)

/-- The analyzer's blacklist phrases (word-boundary, case-insensitive). -/
def blacklist_keywords : List String :=
  ["sunset", "sunrise", "beach vacation", "holiday trip", "travel blog",
   "gorgeous view", "stunning sunset", "breathtaking landscape",
   "nature photography", "scenic route", "mountain hiking", "ocean waves",
   "sunny weather", "rainy day mood", "snowy morning", "windy afternoon",
   "family dinner", "kids birthday", "baby photos", "wedding day",
   "anniversary celebration", "graduation party", "date night outfit",
   "cooking dinner", "favorite recipe", "restaurant review", "morning coffee",
   "wine tasting", "beer garden", "workout routine", "gym session",
   "yoga class", "meditation time",
   "movie night", "netflix binge", "youtube video", "music concert",
   "favorite song", "new album", "gaming session", "xbox game",
   "playstation exclusive", "sports game", "football match",
   "basketball season", "tennis tournament",
   "shopping spree", "fashion week", "outfit of the day", "new shoes",
   "makeup tutorial", "skincare routine",
   "follow me", "follow back", "like and share", "retweet if",
   "good morning everyone", "good night twitter", "how are you",
   "just woke up", "going to bed", "miss you all", "love you guys",
   "thinking of you", "prayers for", "rest in peace"]

/-- The analyzer's technical keywords (word-boundary, case-insensitive). -/
def tech_keywords : List String :=
  ["ai", "ml", "llm", "gpt", "claude", "openai", "anthropic", "model",
   "prompt", "agent", "copilot", "cursor", "sdk", "api", "cli", "repo",
   "pull request", "pr", "a/b test", "ab test", "no-code", "low-code",
   "dev", "developer", "framework", "library", "fastapi", "supabase",
   "tweepy", "vector", "embedding", "inference", "tool", "code", "tech",
   "data", "automation", "software", "algorithm", "neural", "machine learning",
   "deep learning", "python", "javascript", "programming", "engineering",
   "startup", "saas", "platform", "database", "cloud", "aws", "azure",
   "google cloud", "kubernetes", "docker", "blockchain", "crypto", "web3",
   "productivity", "crm", "analytics", "dashboard", "metrics", "devtools"]

/-- One keyword of `\b(kw)\b` matches at the head of `cs` (checking the
trailing word boundary; the leading boundary is checked by the caller). -/
def kwAt (kw : List Char) (cs : List Char) : Bool :=
  leadsWith kw cs &&
    (match cs.drop kw.length with
     | [] => true
     | c :: _ => !isWordChar c)

/-- Scanner for `re.search(r'\b(kw1|kw2|...)\b', text)`: `prev` carries the
character before the current position for the leading boundary test.  The
analyzer only searches already-lower-cased text with lower-case keywords, so
the `re.IGNORECASE` flag needs no separate handling. -/
def wbSearchAux (kws : List (List Char)) : Option Char → List Char → Bool
  | _, [] => false
  | prev, c :: cs =>
    ((match prev with
      | none => true
      | some p => !isWordChar p) && kws.any (fun kw => kwAt kw (c :: cs)))
    || wbSearchAux kws (some c) cs

def wordBoundarySearch (kws : List String) (s : String) : Bool :=
  wbSearchAux (kws.map String.toList) none s.toList

/-- `BulletproofContentAnalyzer.has_tech_hints` (on normalized text). -/
def has_tech_hints (normalized_text : String) : Bool :=
  wordBoundarySearch tech_keywords normalized_text

/-- Search of the compiled `blacklist_re` (on normalized text). -/
def blacklistHit (normalized_text : String) : Bool :=
  wordBoundarySearch blacklist_keywords normalized_text

/-- `BulletproofContentAnalyzer.quick_filter`: reject-by-default pre-filter;
returns `(should_reject, reason)`. -/
def quick_filter (t : ScrapedTweet) : Bool × String :=
  let raw_text := t.text
  if (pyStrip raw_text).length < 30 then (true, "short")
  else
    let hashtag_ratio := compute_hashtag_ratio raw_text
    if (2 / 5 : ℚ) < hashtag_ratio then (true, "hashtag_spam")
    else
      let normalized := normalize_text raw_text
      if normalized.length < 15 then (true, "no_substance")
      else if blacklistHit normalized then (true, "blacklist_keyword")
      else
        let has_tech := has_tech_hints normalized
        if is_retweet raw_text && !has_tech then (true, "retweet_no_tech")
        else if is_quote_tweet t && !has_tech then (true, "quote_no_tech")
        else if !has_tech then (true, "no_tech_hints")
        else (false, "")

/-- Configuration consumed by the analyzer (from `settings`). -/
structure AnalyzerConfig where
  relevance_threshold : ℚ
  max_approvals_per_hour : Nat
  max_per_author_6h : Nat
  deriving Repr, DecidableEq

/-- The analyzer's mutable rate-limit fields (`hourly_approvals`,
`last_hour_reset`, `author_approvals : author → [timestamps]`, the latter as
an association list mirroring the Python dict). -/
structure AnalyzerState where
  hourly_approvals : Nat
  last_hour_reset : ℚ
  author_approvals : List (String × List ℚ)
  deriving Repr, DecidableEq

/-- Dict lookup on the association list. -/
def lookupA : List (String × List ℚ) → String → Option (List ℚ)
  | [], _ => none
  | (k, v) :: rest, key => if k = key then some v else lookupA rest key

/-- Dict write to an existing key; no-op when the key is absent. -/
def setA : List (String × List ℚ) → String → List ℚ → List (String × List ℚ)
  | [], _, _ => []
  | (k, v) :: rest, key, w => if k = key then (k, w) :: rest else (k, v) :: setA rest key w

/-- Fresh analyzer state at process start (`time.time()` is `t0`). -/
def initAnalyzerState (t0 : ℚ) : AnalyzerState :=
  { hourly_approvals := 0, last_hour_reset := t0, author_approvals := [] }

/-- `BulletproofContentAnalyzer._check_rate_limits`: returns
`((blocked, reason), state-after-check)`.  The check mutates the state in two
ways (hourly-window reset, lazy pruning of the author's timestamp list) but
never increments the counter nor appends timestamps. -/
def _check_rate_limits (cfg : AnalyzerConfig) (s : AnalyzerState) (t : ScrapedTweet)
    (now : ℚ) : (Bool × String) × AnalyzerState :=
  let s1 :=
    if 3600 < now - s.last_hour_reset then
      { s with hourly_approvals := 0, last_hour_reset := now }
    else s
  if cfg.max_approvals_per_hour ≤ s1.hourly_approvals then ((true, "hourly_limit"), s1)
  else
    let author := t.author_username.toLower
    let six_hours_ago := now - 6 * 3600
    match lookupA s1.author_approvals author with
    | some l =>
      let pruned := l.filter (fun ts => decide (six_hours_ago < ts))
      let s2 := { s1 with author_approvals := setA s1.author_approvals author pruned }
      if cfg.max_per_author_6h ≤ pruned.length then ((true, "per_author_limit"), s2)
      else ((false, ""), s2)
    | none => ((false, ""), s1)

/-- The telemetry counters of the global `FilteringMetrics` object. -/
structure FilteringMetrics where
  total_processed : Nat
  quick_rejects : Nat
  ai_rejects : Nat
  approvals : Nat
  parse_errors : Nat
  timeouts : Nat
  per_author_blocks : Nat
  hourly_blocks : Nat
  deriving Repr, DecidableEq

def initMetrics : FilteringMetrics :=
  { total_processed := 0, quick_rejects := 0, ai_rejects := 0, approvals := 0,
    parse_errors := 0, timeouts := 0, per_author_blocks := 0, hourly_blocks := 0 }

/-- A model response that passed JSON parsing and Pydantic validation
(`AIFilterResponse`); validation bounds (`0 ≤ relevance ≤ 100`,
`reason.length ≤ 80`) are stated as hypotheses where they matter. -/
structure AIFilterResponse where
  relevance : ℚ
  approved : Bool
  categories : List String
  reason : String
  deriving Repr, DecidableEq

/-- Outcome of the external text-generation call followed by JSON parsing and
schema validation, as observed by `ai_filter`'s handlers: a validated
response, a parse/validation failure (`kind` is the exception class name), a
timeout of the call, or any other raised exception. -/
inductive AIResult where
  | valid (r : AIFilterResponse)
  | parseFail (kind : String)
  | timeout
  | exn (kind : String)
  deriving Repr, DecidableEq

/-- The tuple returned by `ai_filter`:
`(approved, relevance_score, categories, reason)`. -/
structure AIVerdict where
  approved : Bool
  relevance : ℚ
  categories : List String
  reason : String
  deriving Repr, DecidableEq

/-- `BulletproofContentAnalyzer.ai_filter` after the external call resolved to
`outcome`; threads the telemetry counters. -/
def ai_filter (cfg : AnalyzerConfig) (m : FilteringMetrics) (outcome : AIResult) :
    AIVerdict × FilteringMetrics :=
  match outcome with
  | .valid v =>
    let relevance := max 0 (min 100 v.relevance)
    let approved := v.approved
    let categories := v.categories
    let reason := if v.reason = "" then "no reason" else v.reason
    let threshold_passed := decide (cfg.relevance_threshold ≤ relevance)
    let final_approved := approved && threshold_passed
    let reason :=
      if !final_approved && approved then
        "below_threshold(" ++ toString relevance ++ "%<" ++
          toString cfg.relevance_threshold ++ "%)"
      else reason
    (⟨final_approved, relevance, categories, reason⟩, m)
  | .parseFail kind =>
    (⟨false, 0, [], "parse_error:" ++ kind⟩,
     { m with parse_errors := m.parse_errors + 1 })
  | .timeout =>
    (⟨false, 0, [], "timeout"⟩, { m with timeouts := m.timeouts + 1 })
  | .exn kind =>
    (⟨false, 0, [], "error:" ++ kind⟩, m)

/-- The per-post audit record (`FilterDecision`); the two wall-clock telemetry
fields (`processing_time_ms`, `created_at`) are real-time measurements and are
not modelled. -/
structure FilterDecision where
  tweet_id : String
  stage_quick : String
  quick_reason : String
  stage_ai : String
  ai_score : Option ℚ
  ai_reason : String
  final : String
  categories : List String
  deriving Repr, DecidableEq

/-- The approval commit inside `analyze_tweet` (lines incrementing
`hourly_approvals` and appending `time.time()` to the author's list). -/
def commitApproval (s : AnalyzerState) (t : ScrapedTweet) (commit_time : ℚ) :
    AnalyzerState :=
  let author := t.author_username.toLower
  let lists :=
    match lookupA s.author_approvals author with
    | some l => setA s.author_approvals author (l ++ [commit_time])
    | none => s.author_approvals ++ [(author, [commit_time])]
  { s with hourly_approvals := s.hourly_approvals + 1, author_approvals := lists }

/-- `BulletproofContentAnalyzer.analyze_tweet`: the three-stage decision
engine.  `now` is the `time.time()` read inside the rate-limit check, `ai` the
resolved outcome of the AI stage, `commit_time` the `time.time()` appended on
approval. -/
def analyze_tweet (cfg : AnalyzerConfig) (s : AnalyzerState) (m : FilteringMetrics)
    (t : ScrapedTweet) (now : ℚ) (ai : AIResult) (commit_time : ℚ) :
    FilterDecision × AnalyzerState × FilteringMetrics :=
  let m1 := { m with total_processed := m.total_processed + 1 }
  let q := quick_filter t
  if q.1 then
    (⟨t.tweet_id, "reject", q.2, "skipped", none, "", "rejected", []⟩, s,
     { m1 with quick_rejects := m1.quick_rejects + 1 })
  else
    let rl := _check_rate_limits cfg s t now
    if rl.1.1 then
      let m2 :=
        if rl.1.2 = "hourly_limit" then { m1 with hourly_blocks := m1.hourly_blocks + 1 }
        else { m1 with per_author_blocks := m1.per_author_blocks + 1 }
      (⟨t.tweet_id, "pass", "", "reject", none, rl.1.2, "rejected", []⟩, rl.2, m2)
    else
      let ar := ai_filter cfg m1 ai
      if ar.1.approved then
        (⟨t.tweet_id, "pass", "", "pass", some ar.1.relevance, ar.1.reason,
          "approved", ar.1.categories⟩,
         commitApproval rl.2 t commit_time,
         { ar.2 with approvals := ar.2.approvals + 1 })
      else
        (⟨t.tweet_id, "pass", "", "reject", some ar.1.relevance, ar.1.reason,
          "rejected", ar.1.categories⟩,
         rl.2, { ar.2 with ai_rejects := ar.2.ai_rejects + 1 })

/-- Behaviour of one iteration of the `analyze_tweets` batch loop: either the
awaited `analyze_tweet` resolves (with its observed times and AI outcome), or
the iteration raises and the `except` branch builds an error decision. -/
inductive TweetOutcome where
  | runs (now : ℚ) (ai : AIResult) (commit_time : ℚ)
  | raises (msg : String)
  deriving Repr, DecidableEq

/-- The error decision built by `analyze_tweets`' `except` branch. -/
def errorDecision (id msg : String) : FilterDecision :=
  ⟨id, "error", msg, "skipped", none, "", "rejected", []⟩

/-- Loop of `BulletproofContentAnalyzer.analyze_tweets`; `oracle i` gives the
behaviour of iteration `i`. -/
def analyze_tweetsAux (cfg : AnalyzerConfig) (oracle : Nat → TweetOutcome) :
    Nat → AnalyzerState → FilteringMetrics → List ScrapedTweet →
    List FilterDecision × AnalyzerState × FilteringMetrics
  | _, s, m, [] => ([], s, m)
  | i, s, m, t :: ts =>
    match oracle i with
    | .runs now ai ct =>
      let r := analyze_tweet cfg s m t now ai ct
      let rest := analyze_tweetsAux cfg oracle (i + 1) r.2.1 r.2.2 ts
      (r.1 :: rest.1, rest.2)
    | .raises msg =>
      let rest := analyze_tweetsAux cfg oracle (i + 1) s m ts
      (errorDecision t.tweet_id msg :: rest.1, rest.2)

/-- `BulletproofContentAnalyzer.analyze_tweets`: a total function — every
exception from an individual analysis is converted into an error decision
and nothing propagates to the caller. -/
def analyze_tweets (cfg : AnalyzerConfig) (oracle : Nat → TweetOutcome)
    (s : AnalyzerState) (m : FilteringMetrics) (tweets : List ScrapedTweet) :
    List FilterDecision × AnalyzerState × FilteringMetrics :=
  analyze_tweetsAux cfg oracle 0 s m tweets

/-- Python `int(x)` on a float value: truncation toward zero. -/
def pyInt (q : ℚ) : Int :=
  if 0 ≤ q then ⌊q⌋ else ⌈q⌉

/-- `SmartBackfillOrchestrator._calculate_batch_size` (pure arithmetic;
`batch_base` is the orchestrator's configured base). -/
def _calculate_batch_size (batch_base target_count approved_count total_analyzed attempt : Nat) : Int :=
  if attempt = 1 then max (batch_base : Int) ((target_count : Int) * 2)
  else
    let success_rate : ℚ :=
      if 0 < total_analyzed then (approved_count : ℚ) / (total_analyzed : ℚ) else 1 / 10
    let needed_tweets : Int := (target_count : Int) - (approved_count : Int)
    let estimated_batch : Int :=
      if 0 < success_rate then pyInt ((needed_tweets : ℚ) / success_rate * (3 / 2))
      else needed_tweets * 3
    max (batch_base : Int) (min estimated_batch ((target_count : Int) * 4))

/-- Clamp of an integer to `[lo, hi]` in the usual `max lo (min x hi)` sense. -/
def clampInt (lo hi x : Int) : Int :=
  max lo (min x hi)

/-- The batch-size rule exactly as the specification words it: on attempt 1
request `max(batch_base, target*2)`; later, with the empirical success rate
(`approved ÷ analyzed`, defaulting to 10% with no data) and
`needed = target - approved`, request `int(needed ÷ rate × 1.5)` when the rate
is positive and `needed × 3` otherwise, clamped to `[batch_base, target × 4]`. -/
def batch_size_spec (batch_base target approved total attempt : Nat) : Int :=
  if attempt = 1 then max (batch_base : Int) ((target : Int) * 2)
  else
    let success_rate : ℚ := if total = 0 then 1 / 10 else (approved : ℚ) / (total : ℚ)
    let needed : Int := (target : Int) - (approved : Int)
    clampInt batch_base ((target : Int) * 4)
      (if 0 < success_rate then pyInt ((needed : ℚ) / success_rate * (3 / 2)) else needed * 3)

/-- Orchestrator configuration (`settings.backfill_*`). -/
structure BackfillConfig where
  max_attempts : Nat
  max_multiplier : Nat
  start_window_min : Nat
  max_window_min : Nat
  min_approval_rate : ℚ
  batch_base : Nat
  deriving Repr, DecidableEq

/-- Per-attempt telemetry record (`AttemptLog`). -/
structure AttemptLog where
  attempt : Nat
  fetched : Nat
  approved : Nat
  cum_fetched : Nat
  cum_approved : Nat
  approval_rate : ℚ
  window_minutes : Nat
  list_used : String
  deriving Repr, DecidableEq

/-- Full backfill run summary (`BackfillResult`). -/
structure BackfillResult where
  approved_tweets : List ScrapedTweet
  stop_reason : String
  total_analyzed : Nat
  attempts_made : Nat
  final_approval_rate : ℚ
  lists_used : List String
  window_minutes_final : Nat
  deriving Repr, DecidableEq

/-- External collaborators and real-time effects of one orchestration run:
`fetch attempt batch_size` is the provider batch for that attempt (after the
source dispatch, mock fallback and the exception-to-empty handler);
`fresh attempt t` the `_filter_by_age` verdict (it depends on `datetime.now()`
and tolerant timestamp-string parsing); `analyze attempt batch` the decisions
`bulletproof_analyzer.analyze_tweets` produced (instantiable with the
embedded `analyze_tweets`); `capBlocked attempt t` the `_check_rate_limits`
verdict seen by `_enforce_existing_caps`. -/
structure BackfillEnv where
  fetch : Nat → Int → List ScrapedTweet
  fresh : Nat → ScrapedTweet → Bool
  analyze : Nat → List ScrapedTweet → List FilterDecision
  capBlocked : Nat → ScrapedTweet → Bool

/-- `cum_approved / cum_fetched * 100`, `0.0` on an empty denominator (the
`if cum_fetched > 0` / `if seen_ids` guards in the source). -/
def ratePct (a f : Nat) : ℚ :=
  if f = 0 then 0 else (a : ℚ) / (f : ℚ) * 100

/-- `SmartBackfillOrchestrator._log_attempt`. -/
def mkAttemptLog (attempt fetched approved cum_fetched cum_approved window : Nat)
    (list_used : String) : AttemptLog :=
  ⟨attempt, fetched, approved, cum_fetched, cum_approved,
   ratePct cum_approved cum_fetched, window, list_used⟩

/-- The `for attempt in range(1, max_attempts+1)` loop of
`find_relevant_tweets`, by remaining-iteration fuel.  The Python `seen_ids`
set is modelled as a duplicate-free list (`dedup` on insertion), so
`seen.length` is the set's size. -/
def backfillLoop (cfg : BackfillConfig) (env : BackfillEnv) (target : Nat)
    (lists_used : List String) (list_id : String) :
    Nat → Nat → List String → List ScrapedTweet → Nat → List AttemptLog →
    BackfillResult × List AttemptLog
  | 0, _attempt, seen, approved, window, logs =>
    (⟨approved, "max_attempts", seen.length, cfg.max_attempts,
      ratePct approved.length seen.length, lists_used, window⟩, logs)
  | fuel + 1, attempt, seen, approved, window, logs =>
    let batch_size := _calculate_batch_size cfg.batch_base target approved.length seen.length attempt
    let tweets := env.fetch attempt batch_size
    let new_tweets := tweets.filter (fun t => !(seen.contains t.tweet_id))
    let seen' := seen ++ (new_tweets.map (fun t => t.tweet_id)).dedup
    let fresh_tweets := new_tweets.filter (fun t => env.fresh attempt t)
    if fresh_tweets.isEmpty then
      backfillLoop cfg env target lists_used list_id fuel (attempt + 1) seen' approved window
        (logs ++ [mkAttemptLog attempt 0 0 seen'.length approved.length window list_id])
    else
      let decisions := env.analyze attempt fresh_tweets
      let approved_ids := (decisions.filter (fun d => decide (d.final = "approved"))).map
        (fun d => d.tweet_id)
      let attempt_approved := fresh_tweets.filter (fun t => approved_ids.contains t.tweet_id)
      let capped_approved := attempt_approved.filter (fun t => !(env.capBlocked attempt t))
      let approved' := approved ++ capped_approved
      let logs' := logs ++ [mkAttemptLog attempt fresh_tweets.length capped_approved.length
        seen'.length approved'.length window (lists_used.headD "unknown")]
      if target ≤ approved'.length then
        (⟨approved'.take target, "target_met", seen'.length, attempt,
          ratePct approved'.length seen'.length, lists_used, window⟩, logs')
      else if target * cfg.max_multiplier ≤ seen'.length then
        (⟨approved', "max_total_fetch", seen'.length, attempt,
          ratePct approved'.length seen'.length, lists_used, window⟩, logs')
      else if 50 < seen'.length ∧ (approved'.length : ℚ) / (seen'.length : ℚ) < cfg.min_approval_rate then
        (⟨approved', "low_approval_rate", seen'.length, attempt,
          ((approved'.length : ℚ) / (seen'.length : ℚ)) * 100, lists_used, window⟩, logs')
      else
        backfillLoop cfg env target lists_used list_id fuel (attempt + 1) seen' approved'
          (min cfg.max_window_min (window * 2)) logs'

/-- `SmartBackfillOrchestrator.find_relevant_tweets`: initial tracking state
and source-telemetry labels, then the main loop.  Returns the result together
with the accumulated `attempt_logs`. -/
def find_relevant_tweets (cfg : BackfillConfig) (env : BackfillEnv) (list_id : String)
    (target_count : Nat) (source_type : String) (search_query : String) :
    BackfillResult × List AttemptLog :=
  let lists_used :=
    if source_type = "search" then ["search:" ++ search_query.take 50]
    else if source_type = "hybrid" then
      ["hybrid:" ++ list_id ++ "+search:" ++ search_query.take 50]
    else [list_id]
  backfillLoop cfg env target_count lists_used list_id cfg.max_attempts 1 [] []
    cfg.start_window_min []

/-- The stop-condition cascade exactly as the specification orders it:
`target_met` (with truncation to the target), then `max_total_fetch`, then
`low_approval_rate` (only past 50 seen ids); `none` when no condition fired. -/
def stopCheck (cfg : BackfillConfig) (target : Nat) (lists_used : List String)
    (attempt seenCount : Nat) (approved : List ScrapedTweet) (window : Nat) :
    Option BackfillResult :=
  if target ≤ approved.length then
    some ⟨approved.take target, "target_met", seenCount, attempt,
      ratePct approved.length seenCount, lists_used, window⟩
  else if target * cfg.max_multiplier ≤ seenCount then
    some ⟨approved, "max_total_fetch", seenCount, attempt,
      ratePct approved.length seenCount, lists_used, window⟩
  else if 50 < seenCount ∧ (approved.length : ℚ) / (seenCount : ℚ) < cfg.min_approval_rate then
    some ⟨approved, "low_approval_rate", seenCount, attempt,
      ((approved.length : ℚ) / (seenCount : ℚ)) * 100, lists_used, window⟩
  else none

/-- Window doubling capped at the configured maximum. -/
def nextWindow (cfg : BackfillConfig) (window : Nat) : Nat :=
  min cfg.max_window_min (window * 2)

/-- The amended loop description: attempts that produced at least one fresh
post run the ordered `stopCheck` cascade and, when nothing fired, double the
window; attempts with no fresh posts skip the checks and keep the window. -/
def backfillLoopAmended (cfg : BackfillConfig) (env : BackfillEnv) (target : Nat)
    (lists_used : List String) (list_id : String) :
    Nat → Nat → List String → List ScrapedTweet → Nat → List AttemptLog →
    BackfillResult × List AttemptLog
  | 0, _attempt, seen, approved, window, logs =>
    (⟨approved, "max_attempts", seen.length, cfg.max_attempts,
      ratePct approved.length seen.length, lists_used, window⟩, logs)
  | fuel + 1, attempt, seen, approved, window, logs =>
    let batch_size := _calculate_batch_size cfg.batch_base target approved.length seen.length attempt
    let tweets := env.fetch attempt batch_size
    let new_tweets := tweets.filter (fun t => !(seen.contains t.tweet_id))
    let seen' := seen ++ (new_tweets.map (fun t => t.tweet_id)).dedup
    let fresh_tweets := new_tweets.filter (fun t => env.fresh attempt t)
    if fresh_tweets.isEmpty then
      backfillLoopAmended cfg env target lists_used list_id fuel (attempt + 1) seen' approved window
        (logs ++ [mkAttemptLog attempt 0 0 seen'.length approved.length window list_id])
    else
      let decisions := env.analyze attempt fresh_tweets
      let approved_ids := (decisions.filter (fun d => decide (d.final = "approved"))).map
        (fun d => d.tweet_id)
      let attempt_approved := fresh_tweets.filter (fun t => approved_ids.contains t.tweet_id)
      let capped_approved := attempt_approved.filter (fun t => !(env.capBlocked attempt t))
      let approved' := approved ++ capped_approved
      let logs' := logs ++ [mkAttemptLog attempt fresh_tweets.length capped_approved.length
        seen'.length approved'.length window (lists_used.headD "unknown")]
      match stopCheck cfg target lists_used attempt seen'.length approved' window with
      | some r => (r, logs')
      | none =>
        backfillLoopAmended cfg env target lists_used list_id fuel (attempt + 1) seen' approved'
          (nextWindow cfg window) logs'

/-- The loop as claim C5 words it: the stop-condition cascade is evaluated
after *every* attempt (also the ones with no fresh posts), and whenever no
stop condition fired the window is doubled for the next attempt. -/
def backfillLoopClaim (cfg : BackfillConfig) (env : BackfillEnv) (target : Nat)
    (lists_used : List String) (list_id : String) :
    Nat → Nat → List String → List ScrapedTweet → Nat → List AttemptLog →
    BackfillResult × List AttemptLog
  | 0, _attempt, seen, approved, window, logs =>
    (⟨approved, "max_attempts", seen.length, cfg.max_attempts,
      ratePct approved.length seen.length, lists_used, window⟩, logs)
  | fuel + 1, attempt, seen, approved, window, logs =>
    let batch_size := _calculate_batch_size cfg.batch_base target approved.length seen.length attempt
    let tweets := env.fetch attempt batch_size
    let new_tweets := tweets.filter (fun t => !(seen.contains t.tweet_id))
    let seen' := seen ++ (new_tweets.map (fun t => t.tweet_id)).dedup
    let fresh_tweets := new_tweets.filter (fun t => env.fresh attempt t)
    let capped_approved :=
      if fresh_tweets.isEmpty then []
      else
        let decisions := env.analyze attempt fresh_tweets
        let approved_ids := (decisions.filter (fun d => decide (d.final = "approved"))).map
          (fun d => d.tweet_id)
        (fresh_tweets.filter (fun t => approved_ids.contains t.tweet_id)).filter
          (fun t => !(env.capBlocked attempt t))
    let approved' := approved ++ capped_approved
    let logs' := logs ++ [mkAttemptLog attempt fresh_tweets.length capped_approved.length
      seen'.length approved'.length window (lists_used.headD "unknown")]
    match stopCheck cfg target lists_used attempt seen'.length approved' window with
    | some r => (r, logs')
    | none =>
      backfillLoopClaim cfg env target lists_used list_id fuel (attempt + 1) seen' approved'
        (nextWindow cfg window) logs'

/-- `find_relevant_tweets` as claim C5 describes the loop. -/
def find_relevant_tweetsClaim (cfg : BackfillConfig) (env : BackfillEnv) (list_id : String)
    (target_count : Nat) (source_type : String) (search_query : String) :
    BackfillResult × List AttemptLog :=
  let lists_used :=
    if source_type = "search" then ["search:" ++ search_query.take 50]
    else if source_type = "hybrid" then
      ["hybrid:" ++ list_id ++ "+search:" ++ search_query.take 50]
    else [list_id]
  backfillLoopClaim cfg env target_count lists_used list_id cfg.max_attempts 1 [] []
    cfg.start_window_min []

/-- Claim C7's rule list as stated: rule 1 tests the *raw* length, without
the `strip()` the source applies first. -/
def quickFilterClaim (t : ScrapedTweet) : Bool × String :=
  if t.text.length < 30 then (true, "short")
  else if (2 / 5 : ℚ) < compute_hashtag_ratio t.text then (true, "hashtag_spam")
  else if (normalize_text t.text).length < 15 then (true, "no_substance")
  else if blacklistHit (normalize_text t.text) then (true, "blacklist_keyword")
  else if is_retweet t.text && !(has_tech_hints (normalize_text t.text)) then
    (true, "retweet_no_tech")
  else if is_quote_tweet t && !(has_tech_hints (normalize_text t.text)) then
    (true, "quote_no_tech")
  else if !(has_tech_hints (normalize_text t.text)) then (true, "no_tech_hints")
  else (false, "")

/-- Claim C7 amended: identical fixed-order first-match rule list, with rule 1
reading "raw text shorter than 30 characters after trimming surrounding
whitespace". -/
def quickFilterAmended (t : ScrapedTweet) : Bool × String :=
  if (pyStrip t.text).length < 30 then (true, "short")
  else if (2 / 5 : ℚ) < compute_hashtag_ratio t.text then (true, "hashtag_spam")
  else if (normalize_text t.text).length < 15 then (true, "no_substance")
  else if blacklistHit (normalize_text t.text) then (true, "blacklist_keyword")
  else if is_retweet t.text && !(has_tech_hints (normalize_text t.text)) then
    (true, "retweet_no_tech")
  else if is_quote_tweet t && !(has_tech_hints (normalize_text t.text)) then
    (true, "quote_no_tech")
  else if !(has_tech_hints (normalize_text t.text)) then (true, "no_tech_hints")
  else (false, "")

/-- One sequential operation touching the rate-limit state: a full
`analyze_tweet` call, or a bare `_check_rate_limits` probe as issued by
`SmartBackfillOrchestrator._enforce_existing_caps`. -/
inductive RateOp where
  | analyze (t : ScrapedTweet) (now : ℚ) (ai : AIResult) (commit_time : ℚ)
  | capsCheck (t : ScrapedTweet) (now : ℚ)

/-- Effect of one operation on the shared analyzer state. -/
def rateStep (cfg : AnalyzerConfig) (sm : AnalyzerState × FilteringMetrics) (op : RateOp) :
    AnalyzerState × FilteringMetrics :=
  match op with
  | .analyze t now ai ct =>
    let r := analyze_tweet cfg sm.1 sm.2 t now ai ct
    (r.2.1, r.2.2)
  | .capsCheck t now => ((_check_rate_limits cfg sm.1 t now).2, sm.2)

/-- Sequential execution of a list of operations. -/
def runOps (cfg : AnalyzerConfig) (sm : AnalyzerState × FilteringMetrics) :
    List RateOp → AnalyzerState × FilteringMetrics
  | [] => sm
  | op :: ops => runOps cfg (rateStep cfg sm op) ops

/-- The approval timestamps currently stored for an author. -/
def lookupList (s : AnalyzerState) (author : String) : List ℚ :=
  (lookupA s.author_approvals author).getD []

/-- Number of stored timestamps inside the trailing 6-hour window ending at
`t`. -/
def windowCount (l : List ℚ) (t : ℚ) : Nat :=
  (l.filter (fun ts => decide (t - 6 * 3600 < ts) && decide (ts ≤ t))).length

/-- Concrete analyzer configuration used by the evaluation instances
(threshold 20%, hourly cap 20, per-author cap 4 — the source defaults). -/
def cfgW : AnalyzerConfig := ⟨20, 20, 4⟩

/-- Concrete per-author cap 0 configuration (reachable through
`MAX_PER_AUTHOR_6H=0`). -/
def cfgZeroCap : AnalyzerConfig := ⟨20, 20, 0⟩

/-- Concrete technical post that passes the quick filter. -/
def tweetW : ScrapedTweet :=
  ⟨"t1", "building a python api for data pipelines", "techguy", [], 5, 1⟩

/-- A validated, confidently approving model response. -/
def respW : AIFilterResponse := ⟨95, true, ["AI News"], "solid"⟩

/-- Start state for the C9 counterexample: hourly counter 3, window opened at
time 0. -/
def stateC9 : AnalyzerState := ⟨3, 0, []⟩

/-- Whitespace-padded technical post: 27 visible characters plus five
trailing blanks, so the raw length is 32 but the stripped length is 27. -/
def tweetPad : ScrapedTweet :=
  ⟨"t2", "python code rocks every day     ", "techguy", [], 0, 0⟩

/-- Backfill configuration with a single attempt (C5 counterexample). -/
def cfgY : BackfillConfig := ⟨1, 8, 30, 2880, 1 / 100, 10⟩

/-- Backfill configuration with three attempts (source defaults otherwise). -/
def cfgZ : BackfillConfig := ⟨3, 8, 30, 2880, 1 / 100, 10⟩

/-- Environment whose provider never returns anything. -/
def envEmpty : BackfillEnv :=
  ⟨fun _ _ => [], fun _ _ => true, fun _ _ => [], fun _ _ => false⟩

/-- Environment with one fresh approvable tweet per fetch and an
always-approving classifier. -/
def envOne : BackfillEnv :=
  ⟨fun _ _ => [tweetW], fun _ _ => true,
   fun _ ts => ts.map (fun t => ⟨t.tweet_id, "pass", "", "pass", some 95, "ok", "approved", []⟩),
   fun _ _ => false⟩

/-- The rate-cap invariant of claim C6: every author's stored approval
timestamps number at most `cap` inside any trailing 6-hour window. -/
def perAuthorOk (cap : Nat) (s : AnalyzerState) : Prop :=
  ∀ author t, windowCount (lookupList s author) t ≤ cap

/-- Batch oracle where every iteration raises. -/
def oracleRaise : Nat → TweetOutcome :=
  fun _ => TweetOutcome.raises "boom"

/- ------------------------------------------------------------------ -/
/- Helper lemmas (shared).                                            -/
/- ------------------------------------------------------------------ -/

theorem ai_filter_approved_iff (cfg : AnalyzerConfig) (m : FilteringMetrics) (ai : AIResult) :
    (ai_filter cfg m ai).1.approved = true ↔
      ∃ r, ai = AIResult.valid r ∧ r.approved = true ∧
        cfg.relevance_threshold ≤ max 0 (min 100 r.relevance) := by
  cases ai with
  | valid v =>
    simp only [ai_filter, Bool.and_eq_true, decide_eq_true_eq, AIResult.valid.injEq]
    constructor
    · rintro ⟨ha, ht⟩; exact ⟨v, rfl, ha, ht⟩
    · rintro ⟨r, hr, ha, ht⟩; cases hr; exact ⟨ha, ht⟩
  | parseFail k => simp [ai_filter]
  | timeout => simp [ai_filter]
  | exn k => simp [ai_filter]

theorem analyze_tweet_id (cfg : AnalyzerConfig) (s : AnalyzerState) (m : FilteringMetrics)
    (t : ScrapedTweet) (now : ℚ) (ai : AIResult) (ct : ℚ) :
    (analyze_tweet cfg s m t now ai ct).1.tweet_id = t.tweet_id := by
  simp only [analyze_tweet]
  split_ifs <;> rfl

/- ------------------------------------------------------------------ -/
/- Claim theorems.                                                    -/
/- ------------------------------------------------------------------ -/

/-- C2: when the external call raises, times out, or its response fails JSON
parsing or schema validation, the classification is a rejection — never an
approval — with reason `parse_error:<kind>` for parse/validation failures and
`timeout` for timeouts, the matching telemetry counter (`parse_errors`,
`timeouts`) is incremented, and the whole pipeline still returns a `rejected`
decision (the embedding is a total function: no exception escapes). -/
theorem c2_fail_closed (cfg : AnalyzerConfig) (s : AnalyzerState) (m : FilteringMetrics)
    (t : ScrapedTweet) (now ct : ℚ) (k : String) :
    ai_filter cfg m (AIResult.parseFail k) =
      (⟨false, 0, [], "parse_error:" ++ k⟩, { m with parse_errors := m.parse_errors + 1 }) ∧
    ai_filter cfg m AIResult.timeout =
      (⟨false, 0, [], "timeout"⟩, { m with timeouts := m.timeouts + 1 }) ∧
    (ai_filter cfg m (AIResult.exn k)).1.approved = false ∧
    (analyze_tweet cfg s m t now (AIResult.parseFail k) ct).1.final = "rejected" ∧
    (analyze_tweet cfg s m t now AIResult.timeout ct).1.final = "rejected" ∧
    (analyze_tweet cfg s m t now (AIResult.exn k) ct).1.final = "rejected" := by
  refine ⟨rfl, rfl, rfl, ?_, ?_, ?_⟩ <;>
  · simp only [analyze_tweet]
    split_ifs <;> first | rfl | simp_all [ai_filter]

/-- C3: for a validated model response the final approval is exactly
`model approved AND relevance ≥ threshold`, and when the model approved but
the relevance missed the threshold the verdict is not approved and the reason
is rewritten to `below_threshold(<relevance>%<<threshold>%)`. -/
theorem c3_threshold_override (cfg : AnalyzerConfig) (m : FilteringMetrics)
    (r : AIFilterResponse) (h0 : 0 ≤ r.relevance) (h1 : r.relevance ≤ 100) :
    (ai_filter cfg m (AIResult.valid r)).1.approved =
      (r.approved && decide (cfg.relevance_threshold ≤ r.relevance)) ∧
    (r.approved = true → r.relevance < cfg.relevance_threshold →
      (ai_filter cfg m (AIResult.valid r)).1.approved = false ∧
      (ai_filter cfg m (AIResult.valid r)).1.reason =
        "below_threshold(" ++ toString r.relevance ++ "%<" ++
          toString cfg.relevance_threshold ++ "%)") := by
  have hcl : max 0 (min 100 r.relevance) = r.relevance := by
    rw [min_eq_right h1, max_eq_right h0]
  constructor
  · simp only [ai_filter, hcl]
  · intro ha hlt
    have hd : decide (cfg.relevance_threshold ≤ r.relevance) = false := by
      simp [not_le.mpr hlt]
    constructor
    · simp only [ai_filter, hcl, ha, hd, Bool.and_false]
    · simp [ai_filter, hcl, ha, hd]

/-- C3 witness: threshold 20, validated response `relevance 95, approved`. -/
theorem c3_threshold_override_witness :
    (0 : ℚ) ≤ respW.relevance ∧ respW.relevance ≤ 100 ∧
    (ai_filter cfgW initMetrics (AIResult.valid respW)).1.approved =
      (respW.approved && decide (cfgW.relevance_threshold ≤ respW.relevance)) :=
  ⟨by with_unfolding_all decide, by with_unfolding_all decide,
   (c3_threshold_override cfgW initMetrics respW (by with_unfolding_all decide)
     (by with_unfolding_all decide)).1⟩

/-- C7 counterexample: `tweetPad` has 32 raw characters (27 visible plus five
trailing blanks), so rule 1 as the claim states it does not fire and the
claim's rule list lets the post pass, while the source rejects it as `short`
because it measures the stripped length. -/
theorem c7_counterexample : quick_filter tweetPad ≠ quickFilterClaim tweetPad := by
  with_unfolding_all decide

/-- C7 amended: the quick filter evaluates exactly the claimed rule list in
the claimed fixed first-match order, with rule 1 reading "raw text shorter
than 30 characters after stripping surrounding whitespace". -/
theorem c7_rule_order (t : ScrapedTweet) : quick_filter t = quickFilterAmended t := rfl

/-- C8: the batch-size calculation agrees with the specified pure function of
`(target_count, approved_so_far, total_analyzed, attempt)`: attempt 1 gives
`max(batch_base, target*2)`; later attempts use the empirical success rate
(10% default on no data), `needed = target - approved`,
`int(needed / success_rate * 1.5)` (or `needed * 3` at zero rate), clamped to
`[batch_base, target * 4]`. -/
theorem c8_batch_size (batch_base target approved total attempt : Nat) :
    _calculate_batch_size batch_base target approved total attempt =
      batch_size_spec batch_base target approved total attempt := by
  unfold _calculate_batch_size batch_size_spec clampInt
  rcases Nat.eq_zero_or_pos total with h | h
  · simp [h]
  · simp [h, Nat.pos_iff_ne_zero.mp h]

theorem lookupA_setA_same (m : List (String × List ℚ)) (k : String) (v : List ℚ) :
    lookupA (setA m k v) k = (lookupA m k).map (fun _ => v) := by
  induction m with
  | nil => rfl
  | cons a rest ih =>
    obtain ⟨a1, a2⟩ := a
    by_cases h : a1 = k
    · simp [setA, lookupA, h]
    · simp [setA, lookupA, h, ih]

theorem lookupA_setA_other (m : List (String × List ℚ)) (k : String) (v : List ℚ)
    (k' : String) (h : k' ≠ k) :
    lookupA (setA m k v) k' = lookupA m k' := by
  induction m with
  | nil => rfl
  | cons a rest ih =>
    obtain ⟨a1, a2⟩ := a
    by_cases h1 : a1 = k
    · have h2 : ¬(a1 = k') := fun hh => h (hh ▸ h1)
      have h3 : ¬(k = k') := fun hh => h hh.symm
      simp [setA, lookupA, h1, h2, h3]
    · simp [setA, lookupA, h1, ih]

theorem lookupA_append_single (m : List (String × List ℚ)) (k : String) (v : List ℚ)
    (k' : String) :
    lookupA (m ++ [(k, v)]) k' =
      (match lookupA m k' with
       | some w => some w
       | none => if k = k' then some v else none) := by
  induction m with
  | nil => simp [lookupA]
  | cons a rest ih =>
    obtain ⟨a1, a2⟩ := a
    by_cases h : a1 = k'
    · simp [lookupA, h]
    · simp [lookupA, h, ih]

theorem check_hourly_eq (cfg : AnalyzerConfig) (s : AnalyzerState) (t : ScrapedTweet)
    (now : ℚ) :
    (_check_rate_limits cfg s t now).2.hourly_approvals =
      if 3600 < now - s.last_hour_reset then 0 else s.hourly_approvals := by
  simp only [_check_rate_limits]
  repeat' split
  all_goals simp_all

theorem check_lookup_eq (cfg : AnalyzerConfig) (s : AnalyzerState) (t : ScrapedTweet)
    (now : ℚ) (au : String) :
    lookupA (_check_rate_limits cfg s t now).2.author_approvals au =
      if cfg.max_approvals_per_hour ≤
          (if 3600 < now - s.last_hour_reset then 0 else s.hourly_approvals) then
        lookupA s.author_approvals au
      else if au = t.author_username.toLower then
        (lookupA s.author_approvals au).map
          (List.filter (fun ts => decide (now - 6 * 3600 < ts)))
      else lookupA s.author_approvals au := by
  simp only [_check_rate_limits]
  repeat' split
  all_goals simp_all [lookupA_setA_same, lookupA_setA_other]

theorem analyze_state_eq (cfg : AnalyzerConfig) (s : AnalyzerState) (m : FilteringMetrics)
    (t : ScrapedTweet) (now : ℚ) (ai : AIResult) (ct : ℚ) :
    (analyze_tweet cfg s m t now ai ct).2.1 =
      if (quick_filter t).1 then s
      else if (_check_rate_limits cfg s t now).1.1 then (_check_rate_limits cfg s t now).2
      else if (ai_filter cfg { m with total_processed := m.total_processed + 1 } ai).1.approved
        then commitApproval (_check_rate_limits cfg s t now).2 t ct
      else (_check_rate_limits cfg s t now).2 := by
  by_cases h1 : (quick_filter t).1
  · simp [analyze_tweet, h1]
  · by_cases h2 : (_check_rate_limits cfg s t now).1.1
    · simp [analyze_tweet, h1, h2]
    · by_cases h3 : (ai_filter cfg { m with total_processed := m.total_processed + 1 } ai).1.approved
      · simp [analyze_tweet, h1, h2, h3]
      · simp [analyze_tweet, h1, h2, h3]

theorem check_author_bound (cfg : AnalyzerConfig) (s : AnalyzerState) (t : ScrapedTweet)
    (now : ℚ) (h : (_check_rate_limits cfg s t now).1.1 = false) :
    ∀ l, lookupA (_check_rate_limits cfg s t now).2.author_approvals
        (t.author_username.toLower) = some l →
      l.length < cfg.max_per_author_6h := by
  intro l hl
  revert h hl
  simp only [_check_rate_limits]
  repeat' split
  all_goals intro h hl
  all_goals simp_all [lookupA_setA_same]

/-- C1: a decision's final verdict is `approved` exactly when the quick stage
passed, the rate-limit check did not block, and the AI stage resolved to a
validated response with `approved = true` whose (clamped) relevance meets the
configured threshold; in every other case the verdict is `rejected`. -/
theorem c1_final_verdict (cfg : AnalyzerConfig) (s : AnalyzerState) (m : FilteringMetrics)
    (t : ScrapedTweet) (now : ℚ) (ai : AIResult) (ct : ℚ) :
    (((analyze_tweet cfg s m t now ai ct).1.final = "approved") ↔
      ((quick_filter t).1 = false ∧ (_check_rate_limits cfg s t now).1.1 = false ∧
        ∃ r, ai = AIResult.valid r ∧ r.approved = true ∧
          cfg.relevance_threshold ≤ max 0 (min 100 r.relevance))) ∧
    ((analyze_tweet cfg s m t now ai ct).1.final = "approved" ∨
      (analyze_tweet cfg s m t now ai ct).1.final = "rejected") := by
  have hai := ai_filter_approved_iff cfg
    { m with total_processed := m.total_processed + 1 } ai
  by_cases h1 : (quick_filter t).1
  · have hfin : (analyze_tweet cfg s m t now ai ct).1.final = "rejected" := by
      simp [analyze_tweet, h1]
    rw [hfin]
    refine ⟨⟨fun hf => absurd hf (by decide), fun hrhs => absurd hrhs.1 (by simp [h1])⟩,
      Or.inr rfl⟩
  · by_cases h2 : (_check_rate_limits cfg s t now).1.1
    · have hfin : (analyze_tweet cfg s m t now ai ct).1.final = "rejected" := by
        simp [analyze_tweet, h1, h2]
      rw [hfin]
      refine ⟨⟨fun hf => absurd hf (by decide), fun hrhs => absurd hrhs.2.1 (by simp [h2])⟩,
        Or.inr rfl⟩
    · by_cases h3 : (ai_filter cfg { m with total_processed := m.total_processed + 1 } ai).1.approved
      · have hfin : (analyze_tweet cfg s m t now ai ct).1.final = "approved" := by
          simp [analyze_tweet, h1, h2, h3]
        have h1' : (quick_filter t).1 = false := by simpa using h1
        have h2' : (_check_rate_limits cfg s t now).1.1 = false := by simpa using h2
        rw [hfin]
        exact ⟨⟨fun _ => ⟨h1', h2', hai.mp h3⟩, fun _ => rfl⟩, Or.inl rfl⟩
      · have hfin : (analyze_tweet cfg s m t now ai ct).1.final = "rejected" := by
          simp [analyze_tweet, h1, h2, h3]
        rw [hfin]
        refine ⟨⟨fun hf => absurd hf (by decide),
          fun hrhs => (h3 (hai.mpr hrhs.2.2)).elim⟩, Or.inr rfl⟩

/-- C1 witness: a technical post, empty rate-limit state and an approving
validated response yield the final verdict `approved`. -/
theorem c1_final_verdict_witness :
    (analyze_tweet cfgW (initAnalyzerState 0) initMetrics tweetW 100
      (AIResult.valid respW) 100).1.final = "approved" :=
  (c1_final_verdict cfgW (initAnalyzerState 0) initMetrics tweetW 100
    (AIResult.valid respW) 100).1.mpr
    ⟨by with_unfolding_all decide, by with_unfolding_all decide,
     respW, rfl, rfl, by with_unfolding_all decide⟩

/-- C9 counterexample: the rate-limit check is not read-only — on a state
whose hourly window opened at time 0 with counter 3, a check at time 4000
resets the counter (and in general it also rewrites the author's pruned
timestamp list), so the state after the check differs from the state before. -/
theorem c9_counterexample : (_check_rate_limits cfgW stateC9 tweetW 4000).2 ≠ stateC9 := by
  with_unfolding_all decide

/-- C9 amended: the check never increments the hourly counter and never adds
timestamps — its only writes are the hourly-window reset (counter to zero once
more than an hour elapsed) and the lazy pruning of the checked author's list
to the trailing 6-hour window (skipped when the hourly limit already blocks) —
and the commit that increments the counter and appends the author's timestamp
is executed by `analyze_tweet` exactly when the final verdict is `approved`. -/
theorem c9_check_readonly_commit (cfg : AnalyzerConfig) (s : AnalyzerState)
    (m : FilteringMetrics) (t : ScrapedTweet) (now : ℚ) (ai : AIResult) (ct : ℚ) :
    ((_check_rate_limits cfg s t now).2.hourly_approvals =
      if 3600 < now - s.last_hour_reset then 0 else s.hourly_approvals) ∧
    (∀ au, lookupA (_check_rate_limits cfg s t now).2.author_approvals au =
      if cfg.max_approvals_per_hour ≤
          (if 3600 < now - s.last_hour_reset then 0 else s.hourly_approvals) then
        lookupA s.author_approvals au
      else if au = t.author_username.toLower then
        (lookupA s.author_approvals au).map
          (List.filter (fun ts => decide (now - 6 * 3600 < ts)))
      else lookupA s.author_approvals au) ∧
    ((analyze_tweet cfg s m t now ai ct).2.1 =
      if (quick_filter t).1 then s
      else if (_check_rate_limits cfg s t now).1.1 then (_check_rate_limits cfg s t now).2
      else if (ai_filter cfg { m with total_processed := m.total_processed + 1 } ai).1.approved
        then commitApproval (_check_rate_limits cfg s t now).2 t ct
      else (_check_rate_limits cfg s t now).2) ∧
    ((analyze_tweet cfg s m t now ai ct).1.final = "approved" ↔
      (quick_filter t).1 = false ∧ (_check_rate_limits cfg s t now).1.1 = false ∧
      (ai_filter cfg { m with total_processed := m.total_processed + 1 } ai).1.approved = true) := by
  refine ⟨check_hourly_eq cfg s t now, fun au => check_lookup_eq cfg s t now au,
    analyze_state_eq cfg s m t now ai ct, ?_⟩
  by_cases h1 : (quick_filter t).1
  · have hfin : (analyze_tweet cfg s m t now ai ct).1.final = "rejected" := by
      simp [analyze_tweet, h1]
    rw [hfin]
    simp [h1]
  · by_cases h2 : (_check_rate_limits cfg s t now).1.1
    · have hfin : (analyze_tweet cfg s m t now ai ct).1.final = "rejected" := by
        simp [analyze_tweet, h1, h2]
      rw [hfin]
      simp [h2]
    · by_cases h3 : (ai_filter cfg { m with total_processed := m.total_processed + 1 } ai).1.approved
      · have hfin : (analyze_tweet cfg s m t now ai ct).1.final = "approved" := by
          simp [analyze_tweet, h1, h2, h3]
        rw [hfin]
        simp [h1, h2, h3]
      · have hfin : (analyze_tweet cfg s m t now ai ct).1.final = "rejected" := by
          simp [analyze_tweet, h1, h2, h3]
        rw [hfin]
        simp [h1, h2, h3]

theorem windowCount_le_length (l : List ℚ) (t : ℚ) : windowCount l t ≤ l.length :=
  List.length_filter_le _ _

theorem windowCount_filter_le (p : ℚ → Bool) (l : List ℚ) (t : ℚ) :
    windowCount (l.filter p) t ≤ windowCount l t :=
  List.Sublist.length_le (List.Sublist.filter _ (List.filter_sublist l))

theorem windowCount_single_le (c t : ℚ) : windowCount [c] t ≤ 1 := by
  by_cases hc : (decide (t - 6 * 3600 < c) && decide (c ≤ t)) = true <;>
    simp [windowCount, List.filter, hc]

theorem windowCount_append_le (l : List ℚ) (c t : ℚ) :
    windowCount (l ++ [c]) t ≤ windowCount l t + 1 := by
  have h1 : windowCount (l ++ [c]) t = windowCount l t + windowCount [c] t := by
    simp [windowCount, List.filter_append]
  rw [h1]
  exact Nat.add_le_add_left (windowCount_single_le c t) _

theorem perAuthorOk_check (cfg : AnalyzerConfig) (cap : Nat) (s : AnalyzerState)
    (t : ScrapedTweet) (now : ℚ) (h : perAuthorOk cap s) :
    perAuthorOk cap ((_check_rate_limits cfg s t now).2) := by
  intro au tt
  simp only [lookupList, check_lookup_eq]
  split_ifs
  all_goals try exact (by simpa [lookupList] using h au tt)
  all_goals
    cases hl : lookupA s.author_approvals au with
    | none => simp [windowCount]
    | some l =>
      simp only [hl, Option.map_some', Option.getD_some]
      exact le_trans (windowCount_filter_le _ _ _)
        (by simpa [lookupList, hl] using h au tt)

theorem perAuthorOk_commit (cap : Nat) (s : AnalyzerState) (t : ScrapedTweet) (ct : ℚ)
    (hcap : 1 ≤ cap) (h : perAuthorOk cap s)
    (hb : ∀ l, lookupA s.author_approvals (t.author_username.toLower) = some l →
      l.length < cap) :
    perAuthorOk cap (commitApproval s t ct) := by
  intro au tt
  simp only [commitApproval, lookupList]
  cases hl : lookupA s.author_approvals (t.author_username.toLower) with
  | some l =>
    simp only [hl]
    by_cases hau : au = t.author_username.toLower
    · subst hau
      rw [lookupA_setA_same, hl]
      simp only [Option.map_some', Option.getD_some]
      calc windowCount (l ++ [ct]) tt ≤ windowCount l tt + 1 := windowCount_append_le l ct tt
        _ ≤ l.length + 1 := Nat.add_le_add_right (windowCount_le_length l tt) 1
        _ ≤ cap := Nat.succ_le_of_lt (hb l hl)
    · rw [lookupA_setA_other _ _ _ _ hau]
      exact h au tt
  | none =>
    simp only [hl]
    rw [lookupA_append_single]
    cases hl' : lookupA s.author_approvals au with
    | some w =>
      simp only [hl', Option.getD_some]
      exact (by simpa [lookupList, hl'] using h au tt)
    | none =>
      by_cases hau : t.author_username.toLower = au
      · simp only [hl', hau, if_pos rfl, Option.getD_some]
        exact le_trans (windowCount_single_le ct tt) hcap
      · simp [hl', hau, windowCount]

theorem perAuthorOk_rateStep (cfg : AnalyzerConfig) (hcap : 1 ≤ cfg.max_per_author_6h)
    (sm : AnalyzerState × FilteringMetrics) (op : RateOp)
    (h : perAuthorOk cfg.max_per_author_6h sm.1) :
    perAuthorOk cfg.max_per_author_6h (rateStep cfg sm op).1 := by
  cases op with
  | capsCheck t now => exact perAuthorOk_check cfg _ sm.1 t now h
  | analyze t now ai ct =>
    simp only [rateStep]
    rw [analyze_state_eq]
    split_ifs with h1 h2 h3
    · exact h
    · exact perAuthorOk_check cfg _ sm.1 t now h
    · exact perAuthorOk_commit _ _ _ _ hcap (perAuthorOk_check cfg _ sm.1 t now h)
        (check_author_bound cfg sm.1 t now (by simpa using h2))
    · exact perAuthorOk_check cfg _ sm.1 t now h

theorem perAuthorOk_runOps (cfg : AnalyzerConfig) (hcap : 1 ≤ cfg.max_per_author_6h) :
    ∀ (ops : List RateOp) (sm : AnalyzerState × FilteringMetrics),
      perAuthorOk cfg.max_per_author_6h sm.1 →
      perAuthorOk cfg.max_per_author_6h (runOps cfg sm ops).1 := by
  intro ops
  induction ops with
  | nil => intro sm h; exact h
  | cons op ops ih => intro sm h; exact ih _ (perAuthorOk_rateStep cfg hcap sm op h)

/-- C6 amended: starting from a fresh analyzer, after any sequence of
sequential analyze / cap-check operations, no author ever has more than the
configured per-author cap of approval timestamps inside any trailing 6-hour
window — provided the configured cap is at least 1 (see the counterexample
for cap 0). -/
theorem c6_rate_cap (cfg : AnalyzerConfig) (hcap : 1 ≤ cfg.max_per_author_6h) (t0 : ℚ)
    (ops : List RateOp) (author : String) (t : ℚ) :
    windowCount (lookupList (runOps cfg (initAnalyzerState t0, initMetrics) ops).1 author) t ≤
      cfg.max_per_author_6h := by
  have h0 : perAuthorOk cfg.max_per_author_6h (initAnalyzerState t0) := by
    intro au tt
    simp [initAnalyzerState, lookupList, lookupA, windowCount]
  exact perAuthorOk_runOps cfg hcap ops _ h0 author t

/-- C6 witness: with the default cap 4, the invariant holds after an empty
operation sequence. -/
theorem c6_rate_cap_witness :
    windowCount (lookupList (runOps cfgW (initAnalyzerState 0, initMetrics) []).1
      "techguy") 0 ≤ cfgW.max_per_author_6h :=
  c6_rate_cap cfgW (by with_unfolding_all decide) 0 [] "techguy" 0

/-- C6 counterexample: with a configured per-author cap of 0, a single
analysis of a previously unseen author that the model approves commits one
timestamp, so that author has 1 > 0 approvals in the trailing window — the
`author in author_approvals` guard skips the per-author check for authors
without history, so a cap of 0 cannot be enforced. -/
theorem c6_rate_cap_counterexample :
    ¬ (windowCount (lookupList (runOps cfgZeroCap (initAnalyzerState 0, initMetrics)
        [RateOp.analyze tweetW 100 (AIResult.valid respW) 100]).1
        "techguy") 100 ≤ cfgZeroCap.max_per_author_6h) := by
  with_unfolding_all decide

theorem backfillLoop_inv (cfg : BackfillConfig) (env : BackfillEnv) (target : Nat)
    (lu : List String) (lid : String) :
    ∀ (fuel attempt : Nat) (seen : List String) (approved : List ScrapedTweet)
      (window : Nat) (logs : List AttemptLog),
      (approved.length < target ∨ approved = []) →
      (backfillLoop cfg env target lu lid fuel attempt seen approved window
        logs).1.approved_tweets.length ≤ target ∧
      ((backfillLoop cfg env target lu lid fuel attempt seen approved window
          logs).1.stop_reason = "target_met" →
        (backfillLoop cfg env target lu lid fuel attempt seen approved window
          logs).1.approved_tweets.length = target) := by
  intro fuel
  induction fuel with
  | zero =>
    intro attempt seen approved window logs hinv
    simp only [backfillLoop]
    refine ⟨?_, fun hr => absurd hr (by decide)⟩
    rcases hinv with h | h
    · exact Nat.le_of_lt h
    · simp [h]
  | succ n ih =>
    intro attempt seen approved window logs hinv
    simp only [backfillLoop]
    split_ifs with hempty htm hmf hlr
    · exact ih _ _ _ _ _ hinv
    · refine ⟨?_, fun _ => ?_⟩
      · rw [List.length_take]
        exact Nat.min_le_left _ _
      · rw [List.length_take]
        exact Nat.min_eq_left htm
    · refine ⟨Nat.le_of_lt (Nat.lt_of_not_le htm), fun hr => ?_⟩
      simp at hr
    · refine ⟨Nat.le_of_lt (Nat.lt_of_not_le htm), fun hr => ?_⟩
      simp at hr
    · exact ih _ _ _ _ _ (Or.inl (Nat.lt_of_not_le htm))

/-- C4: a backfill run's approved list never exceeds the requested target
count, and a run that stops with `target_met` returns exactly `target_count`
approved posts (the list is truncated on that path). -/
theorem c4_target_cap (cfg : BackfillConfig) (env : BackfillEnv) (list_id : String)
    (target_count : Nat) (source_type search_query : String) :
    (find_relevant_tweets cfg env list_id target_count source_type
      search_query).1.approved_tweets.length ≤ target_count ∧
    ((find_relevant_tweets cfg env list_id target_count source_type
        search_query).1.stop_reason = "target_met" →
      (find_relevant_tweets cfg env list_id target_count source_type
        search_query).1.approved_tweets.length = target_count) := by
  simp only [find_relevant_tweets]
  exact backfillLoop_inv cfg env target_count _ list_id cfg.max_attempts 1 [] []
    cfg.start_window_min [] (Or.inr rfl)

/-- C4 witness: a one-tweet supply with an always-approving classifier stops
with `target_met` and returns exactly the one requested post. -/
theorem c4_target_cap_witness :
    (find_relevant_tweets cfgZ envOne "L" 1 "list" "").1.approved_tweets.length = 1 :=
  (c4_target_cap cfgZ envOne "L" 1 "list" "").2 (by with_unfolding_all decide)

/-- C5 counterexample: with a single-attempt configuration and a provider
that returns nothing, the attempt has no fresh posts; the source `continue`s
without evaluating any stop condition and without doubling the window (final
window 30), while the loop as the claim states it would run the stop checks,
find none firing, and double the window to 60 — the two runs produce
different Backfill Results on the same input. -/
theorem c5_counterexample :
    (find_relevant_tweets cfgY envEmpty "L" 1 "list" "").1 ≠
      (find_relevant_tweetsClaim cfgY envEmpty "L" 1 "list" "").1 := by
  with_unfolding_all decide

/-- C5 amended: after every attempt that yielded at least one fresh post, the
stop conditions are evaluated in the fixed order `target_met`,
`max_total_fetch` (seen ids ≥ target × max_multiplier), `low_approval_rate`
(only past 50 seen ids), with `max_attempts` enforced by the loop bound; when
none fired the window is doubled, capped at the configured maximum.  Attempts
with no fresh posts skip the stop checks and leave the window unchanged. -/
theorem c5_stop_order (cfg : BackfillConfig) (env : BackfillEnv) (target : Nat)
    (lu : List String) (lid : String) :
    ∀ (fuel attempt : Nat) (seen : List String) (approved : List ScrapedTweet)
      (window : Nat) (logs : List AttemptLog),
      backfillLoop cfg env target lu lid fuel attempt seen approved window logs =
        backfillLoopAmended cfg env target lu lid fuel attempt seen approved window logs := by
  intro fuel
  induction fuel with
  | zero => intro _ _ _ _ _; rfl
  | succ n ih =>
    intro attempt seen approved window logs
    simp only [backfillLoop, backfillLoopAmended, stopCheck, nextWindow]
    split_ifs <;> first | rfl | apply ih

theorem analyze_tweetsAux_spec (cfg : AnalyzerConfig) (oracle : Nat → TweetOutcome) :
    ∀ (ts : List ScrapedTweet) (i : Nat) (s : AnalyzerState) (m : FilteringMetrics),
      ((analyze_tweetsAux cfg oracle i s m ts).1.map (fun d => d.tweet_id) =
        ts.map (fun t => t.tweet_id)) ∧
      (∀ j t msg, ts[j]? = some t → oracle (i + j) = TweetOutcome.raises msg →
        (analyze_tweetsAux cfg oracle i s m ts).1[j]? =
          some (errorDecision t.tweet_id msg)) := by
  intro ts
  induction ts with
  | nil =>
    intro i s m
    refine ⟨rfl, fun j t msg hj _ => ?_⟩
    simp at hj
  | cons t ts ih =>
    intro i s m
    cases ho : oracle i with
    | runs now ai ct =>
      refine ⟨?_, ?_⟩
      · simp only [analyze_tweetsAux, ho, List.map_cons]
        rw [analyze_tweet_id, (ih (i + 1) _ _).1]
      · intro j u msg hj hor
        cases j with
        | zero =>
          rw [Nat.add_zero, ho] at hor
          cases hor
        | succ j' =>
          simp only [analyze_tweetsAux, ho, List.getElem?_cons_succ] at hj ⊢
          have hor' : oracle (i + 1 + j') = TweetOutcome.raises msg := by
            rw [show i + 1 + j' = i + (j' + 1) by omega]
            exact hor
          exact (ih (i + 1) _ _).2 j' u msg hj hor'
    | raises msg0 =>
      refine ⟨?_, ?_⟩
      · simp only [analyze_tweetsAux, ho, List.map_cons]
        rw [(ih (i + 1) _ _).1]
        rfl
      · intro j u msg hj hor
        cases j with
        | zero =>
          rw [Nat.add_zero, ho] at hor
          cases hor
          simp only [List.getElem?_cons_zero, Option.some.injEq] at hj
          subst hj
          simp [analyze_tweetsAux, ho]
        | succ j' =>
          simp only [analyze_tweetsAux, ho, List.getElem?_cons_succ] at hj ⊢
          have hor' : oracle (i + 1 + j') = TweetOutcome.raises msg := by
            rw [show i + 1 + j' = i + (j' + 1) by omega]
            exact hor
          exact (ih (i + 1) _ _).2 j' u msg hj hor'

/-- C10: the batch analyzer returns exactly one decision per input post, in
input order (the id sequence of the output equals the id sequence of the
input); the embedding is a total function, so nothing propagates to the
caller; and any post whose analysis raises gets the error decision with
quick-stage verdict `error` and final verdict `rejected`. -/
theorem c10_batch_decisions (cfg : AnalyzerConfig) (oracle : Nat → TweetOutcome)
    (s : AnalyzerState) (m : FilteringMetrics) (ts : List ScrapedTweet) :
    ((analyze_tweets cfg oracle s m ts).1.map (fun d => d.tweet_id) =
      ts.map (fun t => t.tweet_id)) ∧
    (analyze_tweets cfg oracle s m ts).1.length = ts.length ∧
    (∀ i t msg, ts[i]? = some t → oracle i = TweetOutcome.raises msg →
      (analyze_tweets cfg oracle s m ts).1[i]? =
        some (errorDecision t.tweet_id msg)) := by
  have h := analyze_tweetsAux_spec cfg oracle ts 0 s m
  refine ⟨h.1, ?_, ?_⟩
  · have hlen := congrArg List.length h.1
    simpa using hlen
  · intro i t msg hi ho
    exact h.2 i t msg hi (by simpa using ho)

/-- C10 witness: a one-element batch whose analysis raises resolves to the
error decision with final verdict `rejected`. -/
theorem c10_batch_decisions_witness :
    (analyze_tweets cfgW oracleRaise (initAnalyzerState 0) initMetrics [tweetW]).1[0]? =
      some (errorDecision "t1" "boom") :=
  (c10_batch_decisions cfgW oracleRaise (initAnalyzerState 0) initMetrics
    [tweetW]).2.2 0 tweetW "boom" rfl rfl

end AutoTwitter
